import Mathlib

/-!
Verification development for the gig-map repository.

The definitions below are shallow embeddings of the Python source under
`src/`:

* `src/app/figure_builder.py` — `FigureBuilder` (argument de-namespacing in
  `add_param`, element validation in `validate_elements`, the read phase in
  `read_data`, the plot phase in `make_plots`);
* `src/app/gig_map_elements.py` — the concrete figure elements
  (`HeatmapElement`, `GeneGenomeHeatmap`, `HeatmapColorbarElement`,
  `GenomeTree`, `AxisAnnot`) and the ordering resolver `order_by_linkage`;
* `src/bin/aggregate_results.py` — the chunked distance-matrix write loop.

Components that the source consumes but that are not present under `src/`
(the Axis registry, the `enabled`/`disable` element flag, the scipy
clustering internals, the neighbor-joining tree service) are modelled from
the specification; each such definition carries a doc comment starting with
"Modelled from the spec:".
-/

/-! ## Elements and the plot phase (figure_builder.py) -/

/-- Result of running a piece of Python code that may raise: either a normal
value or an uncaught exception carrying its message. -/
inductive PyResult (α : Type) where
  | ok (a : α)
  | error (msg : String)
deriving DecidableEq

/-- Modelled from the spec: a figure element carries a globally unique `id`
and an `enabled` flag which defaults to true and which the read step may set
to false via `disable()`.  The `enabled` flag is absent from the
`FigureElement` class in `src/app/figure_builder.py` (only its callers in
`src/app/gig_map_elements.py` use it), so it is modelled here from the spec;
the `id` field is translated from `FigureElement.__init__`. -/
structure PElem where
  id : String
  enabled : Bool
deriving DecidableEq

/-- Translated from `FigureBuilder.make_plots` (figure_builder.py lines
255-271): the plot phase iterates over `self.elements` in declaration order
and calls `element.plot_f(...)` for every element; there is no check of any
`enabled` flag.  The embedding returns the ids of the elements whose plot
step is invoked, in invocation order. -/
def make_plots (elements : List PElem) : List String :=
  elements.map (fun e => e.id)

/-- Record of one read-phase invocation: the namespace whose read step is
called, and whether the `FigureBuilder` instance is passed to it. -/
structure ReadCall where
  ns : String
  fb_passed : Bool
deriving DecidableEq

/-- Translated from `FigureBuilder.read_data` (figure_builder.py lines
238-253): the read phase first calls `self.read_f(**self.params["global"])`
and then, for each element in declaration order,
`element.read_f(**self.params[element.id])`.  Neither call passes the
`FigureBuilder` instance as an argument (only the keyword arguments of the
namespace are passed), which is recorded as `fb_passed := false`. -/
def read_data_calls (elementIds : List String) : List ReadCall :=
  ⟨"global", false⟩ :: elementIds.map (fun i => ⟨i, false⟩)

/-- Element ids of the gig-map figure, in declaration order, translated from
`GigMapFigure.__init__` (gig_map_elements.py lines 34-45). -/
def gigElementIds : List String :=
  ["genomeAnnot", "geneAnnot", "genomeTree", "genomeHeatmap", "genomeColorbar"]

/-- Translated from `HeatmapColorbarElement.read_f` (gig_map_elements.py
lines 342-372): build a dict of sibling elements keyed by id; if the paired
heatmap id is absent, the element disables itself and the following
unguarded subscript `element_dict[self.heatmap_id]` raises `KeyError`; if
the heatmap is present but disabled, the colorbar disables itself.  The
result is the colorbar element state at the end of its read step. -/
def colorbar_read_f (heatmap_id : String) (elements : List PElem)
    (self : PElem) : PyResult PElem :=
  match elements.find? (fun e => e.id == heatmap_id) with
  | none => .error ("KeyError: " ++ heatmap_id)
  | some h => .ok (if h.enabled = false then { self with enabled := false } else self)

/-- Translated from `FigureBuilder.validate_elements` (figure_builder.py
lines 103-119): the duplicate-id check iterates over `self.elements`, but
the attribute `self.elements` has not been assigned yet at the moment
`validate_elements` is called from `__init__` (the assignment is
`self.elements = self.validate_elements(elements)`), so the attribute access
raises `AttributeError` for every input.  The unset attribute is modelled as
`none`; the duplicate scan that the method would perform on an assigned list
is translated in `firstDupIdAux`. -/
def firstDupIdAux : List PElem → List String → Option String
  | [], _ => none
  | e :: rest, seen =>
    if seen.contains e.id then some e.id else firstDupIdAux rest (e.id :: seen)

/-- First element id that repeats an earlier one, scanning in order (the
`all_ids` set walk of `validate_elements`). -/
def firstDupId (es : List PElem) : Option String :=
  firstDupIdAux es []

/-- Translated from `FigureBuilder.validate_elements` (figure_builder.py
lines 103-119); see `firstDupIdAux` for the unset-attribute modelling. -/
def validate_elements (self_elements : Option (List PElem))
    (elements : List PElem) : PyResult (List PElem) :=
  match self_elements with
  | none => .error "AttributeError: FigureBuilder object has no attribute elements"
  | some es =>
    match firstDupId es with
    | some i => .error ("Element id " ++ i ++ " is not unique")
    | none => .ok elements

/-- Translated from `FigureBuilder.__init__` (figure_builder.py line 98):
`self.elements = self.validate_elements(elements)` is executed while
`self.elements` is still unset, so `validate_elements` receives `none` for
the `self.elements` attribute. -/
def figureBuilder_init_elements (elements : List PElem) : PyResult (List PElem) :=
  validate_elements none elements

/-! ## Argument de-namespacing (figure_builder.py add_param / parse_args) -/

/-- Translated from the Python idiom `s.replace("-", "_")` used in
`FigureBuilder.add_param`; also the conversion argparse applies to option
names to obtain attribute names. -/
def pyUnderscore (s : String) : String :=
  String.mk (s.data.map (fun c => if c = '-' then '_' else c))

/-- Global argument keys of the gig-map figure, translated from
`GigMapFigure.__init__` (gig_map_elements.py lines 21-32). -/
def gigGlobalArgKeys : List String :=
  ["output-prefix", "output-folder"]

/-- Argument keys declared by `AxisAnnot.__init__` (gig_map_elements.py
lines 643-670). -/
def axisAnnotArgKeys : List String :=
  ["csv", "index-col", "label-col", "max-label-len", "order"]

/-- Per-element argument keys of the gig-map figure, in declaration order,
translated from the element constructors in gig_map_elements.py
(`AxisAnnot`, `GenomeTree`, `HeatmapElement` with x_axis="gene",
y_axis="genome", and `HeatmapColorbarElement` with no arguments). -/
def gigElementArgs : List (String × List String) :=
  [("genomeAnnot", axisAnnotArgKeys),
   ("geneAnnot", axisAnnotArgKeys),
   ("genomeTree", ["distmat"]),
   ("genomeHeatmap", ["csv", "gene_col", "genome_col", "val_col", "colorscale"]),
   ("genomeColorbar", [])]

/-- All (element id, argument key) pairs of the gig-map figure, in the order
`add_param` scans them. -/
def gigElementArgPairs : List (String × String) :=
  gigElementArgs.flatMap (fun e => e.2.map (fun k => (e.1, k)))

/-- Translated from `FigureBuilder.add_param` (figure_builder.py lines
208-236): given the argparse attribute name `kw`, first scan the global
arguments and, on a match of `arg.key.replace("-", "_") == kw`, store the
value under `params["global"][kw]` (note: under `kw`, not under the original
`arg.key`); otherwise scan each element and its arguments in order and, on a
match of `element.id + "_" + arg.key.replace("-", "_") == kw`, store the
value under `params[element.id][arg.key]` (the original key); otherwise
raise "Could not find a match".  The embedding returns the (namespace,
stored key) destination. -/
def add_param_dest (globals : List String) (els : List (String × List String))
    (kw : String) : PyResult (String × String) :=
  match globals.find? (fun k => pyUnderscore k == kw) with
  | some _ => .ok ("global", kw)
  | none =>
    match (els.flatMap (fun e => e.2.map (fun k => (e.1, k)))).find?
        (fun p => p.1 ++ "_" ++ pyUnderscore p.2 == kw) with
    | some p => .ok (p.1, p.2)
    | none => .error ("Could not find a match for argument: " ++ kw)

/-- Translated from `FigureBuilder.parse_args` (figure_builder.py lines
152-198): the boundary option for an element argument is
`--{element.id}-{arg.key}`, whose argparse attribute name is the option name
with hyphens replaced by underscores; a global argument `--{arg.key}`
likewise becomes `pyUnderscore arg.key`. -/
def boundary_attr_element (e k : String) : String :=
  pyUnderscore (e ++ "-" ++ k)

/-- Argparse attribute name of a global boundary option, see
`boundary_attr_element`. -/
def boundary_attr_global (k : String) : String :=
  pyUnderscore k

/-- C1: the claim states that `make_plots` invokes the plot step of an
element if and only if its `enabled` flag is true, and never for a disabled
element.  The code violates this: `FigureBuilder.make_plots` iterates over
all elements and calls `plot_f` unconditionally, so a disabled element (here
`genomeTree`, disabled during the read phase because no distance matrix was
supplied) still has its plot step invoked, in declaration order. -/
theorem make_plots_calls_disabled_element :
    make_plots
      [⟨"genomeAnnot", true⟩, ⟨"geneAnnot", true⟩, ⟨"genomeTree", false⟩,
       ⟨"genomeHeatmap", true⟩, ⟨"genomeColorbar", true⟩]
      = ["genomeAnnot", "geneAnnot", "genomeTree", "genomeHeatmap", "genomeColorbar"]
    ∧ ("genomeTree" ∈ make_plots
      [⟨"genomeAnnot", true⟩, ⟨"geneAnnot", true⟩, ⟨"genomeTree", false⟩,
       ⟨"genomeHeatmap", true⟩, ⟨"genomeColorbar", true⟩]) := by
  decide

/-- C3: the claim states that the read phase first invokes the global read
step, then each element read step in declaration order, passing both the
parameter namespace and read access to the Builder.  The invocation order
holds, but `FigureBuilder.read_data` passes only the keyword arguments of
the namespace: no call receives the `FigureBuilder` instance, even though
every `read_f` in gig_map_elements.py declares `fb` as its first required
parameter. -/
theorem read_data_order_but_no_builder :
    read_data_calls gigElementIds
      = [⟨"global", false⟩, ⟨"genomeAnnot", false⟩, ⟨"geneAnnot", false⟩,
         ⟨"genomeTree", false⟩, ⟨"genomeHeatmap", false⟩, ⟨"genomeColorbar", false⟩]
    ∧ ((read_data_calls gigElementIds).all (fun c => !c.fb_passed)) = true := by
  decide

/-- C4: the claim states that when the heatmap disables itself, the paired
colorbar also ends the read phase disabled and its plot step is not invoked.
The first half holds: `HeatmapColorbarElement.read_f` looks up the sibling
by id and disables itself when the sibling is disabled.  The second half
fails: `FigureBuilder.make_plots` has no `enabled` check, so the disabled
colorbar still has its plot step invoked. -/
theorem colorbar_disabled_but_still_plotted :
    colorbar_read_f "genomeHeatmap"
      [⟨"genomeAnnot", true⟩, ⟨"geneAnnot", true⟩, ⟨"genomeTree", true⟩,
       ⟨"genomeHeatmap", false⟩, ⟨"genomeColorbar", true⟩]
      ⟨"genomeColorbar", true⟩ = .ok ⟨"genomeColorbar", false⟩
    ∧ ("genomeColorbar" ∈ make_plots
      [⟨"genomeAnnot", true⟩, ⟨"geneAnnot", true⟩, ⟨"genomeTree", true⟩,
       ⟨"genomeHeatmap", false⟩, ⟨"genomeColorbar", false⟩]) := by
  decide

/-- C8: the claim states that construction fails exactly on duplicate
element ids and succeeds (keeping declaration order) on unique ids.  The
code violates this: `validate_elements` iterates over `self.elements`, an
attribute that is only assigned from the result of this very call, so every
construction - duplicate ids or not - fails with `AttributeError` before the
duplicate check can run. -/
theorem builder_init_always_fails :
    figureBuilder_init_elements [⟨"genomeAnnot", true⟩, ⟨"geneAnnot", true⟩]
      = .error "AttributeError: FigureBuilder object has no attribute elements"
    ∧ figureBuilder_init_elements [⟨"dup", true⟩, ⟨"dup", true⟩]
      = .error "AttributeError: FigureBuilder object has no attribute elements" := by
  decide

/-- C5 counterexample: the claim states that a boundary value for a global
declared argument with key `k` is stored at `parameters["global"][k]`.  For
the global key "output-prefix" the boundary attribute is "output_prefix" and
`add_param` stores the value under `params["global"]["output_prefix"]` (the
argparse attribute name), not under the declared key "output-prefix". -/
theorem add_param_global_key_not_original :
    add_param_dest gigGlobalArgKeys gigElementArgs (boundary_attr_global "output-prefix")
      = .ok ("global", "output_prefix")
    ∧ add_param_dest gigGlobalArgKeys gigElementArgs (boundary_attr_global "output-prefix")
      ≠ .ok ("global", "output-prefix")
    ∧ ("output-prefix" ∈ gigGlobalArgKeys) := by
  decide

/-- C5 (amended): for every element id `e` and declared argument key `k` of
the gig-map figure, the boundary value keyed `"{e}-{k}"` is stored at
`parameters[e][k]` (the de-namespaced original key); a boundary value for a
global declared argument with key `k` is stored at
`parameters["global"][k2]` where `k2` is `k` with hyphens replaced by
underscores (the argparse attribute name), not at the original hyphenated
key. -/
theorem add_param_roundtrip_amended :
    (gigElementArgPairs.all (fun p =>
      add_param_dest gigGlobalArgKeys gigElementArgs (boundary_attr_element p.1 p.2)
        == .ok (p.1, p.2))) = true
    ∧ (gigGlobalArgKeys.all (fun k =>
      add_param_dest gigGlobalArgKeys gigElementArgs (boundary_attr_global k)
        == .ok ("global", pyUnderscore k))) = true := by
  decide

/-! ## The Axis registry (modelled from spec section 4.1) -/

/-- Modelled from the spec: an Axis is a named categorical dimension holding
existence, member order, a label mapping and a fix-state (spec sections 3
and 4.1).  The Axis and Axis Registry classes are not under `src/` - only
their callers in gig_map_elements.py are - so the data model follows the
words of the spec. -/
structure Axis where
  ax_exists : Bool
  order : List String
  labels : List (String × String)
  is_fixed : Bool
deriving DecidableEq

/-- Modelled from the spec: the empty, not-yet-existing placeholder Axis the
registry creates on first access. -/
def Axis.empty : Axis :=
  ⟨false, [], [], false⟩

/-- Modelled from the spec: `Axis.set(series)` initializes `order` from the
series key sequence and `label_of` from its values when the Axis does not
yet exist; when it exists it extends order/labels with new members without
reordering, label overwrite being last-writer-wins (spec section 4.1). -/
def Axis.set (a : Axis) (series : List (String × String)) : Axis :=
  if a.ax_exists = false then
    ⟨true, series.map (fun p => p.1), series, a.is_fixed⟩
  else
    { a with
      order := a.order ++ (series.map (fun p => p.1)).filter (fun i => !(a.order.contains i)),
      labels := a.labels.filter (fun p => !((series.map (fun q => q.1)).contains p.1)) ++ series }

/-- Modelled from the spec: `Axis.set_order(sequence)` is a no-op when
`is_fixed` is true and otherwise replaces `order` with the sequence (spec
section 4.1; the subset check against known members is omitted, as the
claims exercise only known-member or fresh-axis paths). -/
def Axis.set_order (a : Axis) (seq : List String) : Axis :=
  if a.is_fixed then a else { a with order := seq }

/-- Modelled from the spec: `Axis.member_set()` is the set of known members
of the axis. -/
def Axis.member_set (a : Axis) : List String :=
  a.order

/-- Modelled from the spec: the Axis Registry owns one Axis per name and
returns an empty placeholder on first access; represented as a total map
from names to Axes, with `updateAxis` as the write-back. -/
def updateAxis (r : String → Axis) (n : String) (a : Axis) : String → Axis :=
  fun m => if m = n then a else r m

/-- Registry state in which no axis exists yet. -/
def emptyReg : String → Axis :=
  fun _ => Axis.empty

/-! ## Annotation elements (AxisAnnot.read_f) -/

/-- Translated from the Python slice `s[:k]` on a string: for nonnegative
`k` it keeps the first `k` characters; for negative `k` it drops the last
`|k|` characters (empty when `|k|` exceeds the length). -/
def pyTruncate (s : String) (k : Int) : String :=
  if k < 0 then String.mk (s.data.take (s.data.length - k.natAbs))
  else String.mk (s.data.take k.toNat)

/-- Translated from `AxisAnnot.read_f` (gig_map_elements.py lines 747-753):
the label series written to the axis is
`df[label_col].apply(lambda s: s[:max_label_len])`, i.e. every label is
truncated at read time.  A row is a pair (index value, label value). -/
def axisAnnot_label_series (rows : List (String × String)) (maxLen : Int) :
    List (String × String) :=
  rows.map (fun p => (p.1, pyTruncate p.2 maxLen))

/-- Translated from `df.reindex(index=index_order)` in `AxisAnnot.read_f`
(gig_map_elements.py line 745); the source asserts beforehand that every
requested index value is present in the table. -/
def pyReindex (rows : List (String × String)) (ord : List String) :
    List (String × String) :=
  ord.filterMap (fun i => rows.find? (fun p => p.1 == i))

/-- Translated from `AxisAnnot.read_f` (gig_map_elements.py lines 672-761),
for the case where a CSV was provided, restricted to the (index, label)
columns the step actually writes: optionally reorder the table by the order
file, write the truncated label series to the axis via `set`, and fix the
axis when an order file was provided. -/
def axisAnnot_read_f (ax : Axis) (rows : List (String × String)) (maxLen : Int)
    (ord : Option (List String)) : Axis :=
  let df := match ord with
    | some o => pyReindex rows o
    | none => rows
  let ax1 := ax.set (axisAnnot_label_series df maxLen)
  match ord with
  | some _ => { ax1 with is_fixed := true }
  | none => ax1

/-- C9: in the annotation read step every label written to the axis is
truncated at read time to its first `max_label_len` characters (hence at
most `max_label_len` characters long). -/
theorem axisAnnot_truncates_labels (rows : List (String × String)) (maxLen : Nat)
    (p : String × String) (hp : p ∈ rows) :
    (p.1, pyTruncate p.2 (maxLen : Int))
        ∈ (axisAnnot_read_f Axis.empty rows (maxLen : Int) none).labels
    ∧ pyTruncate p.2 (maxLen : Int) = String.mk (p.2.data.take maxLen)
    ∧ (pyTruncate p.2 (maxLen : Int)).length ≤ maxLen := by
  have hnn : ¬((maxLen : Int) < 0) := by
    exact Int.not_lt.mpr (Int.natCast_nonneg maxLen)
  have htr : pyTruncate p.2 (maxLen : Int) = String.mk (p.2.data.take maxLen) := by
    simp [pyTruncate, hnn]
  refine ⟨?_, htr, ?_⟩
  · have hmem : (p.1, pyTruncate p.2 (maxLen : Int)) ∈ axisAnnot_label_series rows (maxLen : Int) :=
      List.mem_map_of_mem (fun q => (q.1, pyTruncate q.2 (maxLen : Int))) hp
    have hred : (axisAnnot_read_f Axis.empty rows (maxLen : Int) none).labels
        = axisAnnot_label_series rows (maxLen : Int) := rfl
    rw [hred]
    exact hmem
  · rw [htr]
    have hlen : (String.mk (p.2.data.take maxLen)).length = (p.2.data.take maxLen).length := rfl
    rw [hlen, List.length_take]
    exact Nat.min_le_left _ _

/-- C9 witness: with truncation limit 3 the label "Escherichia" is written
to the axis as "Esc". -/
theorem axisAnnot_truncates_labels_witness :
    ("Esch1", pyTruncate "Escherichia" ((3 : Nat) : Int))
        ∈ (axisAnnot_read_f Axis.empty [("Esch1", "Escherichia")] ((3 : Nat) : Int) none).labels
    ∧ pyTruncate "Escherichia" ((3 : Nat) : Int) = "Esc"
    ∧ (pyTruncate "Escherichia" ((3 : Nat) : Int)).length ≤ 3 := by
  have h := axisAnnot_truncates_labels [("Esch1", "Escherichia")] 3
    ("Esch1", "Escherichia") (by decide)
  exact ⟨h.1, by decide, h.2.2⟩

/-! ## The Ordering Resolver (order_by_linkage, gig_map_elements.py 873-891) -/

/-- Test whether a Python result is a normal value rather than an uncaught
exception. -/
def PyResult.isOk {α : Type} : PyResult α → Bool
  | .ok _ => true
  | .error _ => false

/-- Modelled from the spec: one cluster of the agglomerative clustering
performed inside `scipy.cluster.hierarchy.linkage` (not under `src/`),
carrying its leaf labels in dendrogram traversal order, its size and its
centroid.  Minimum-variance (Ward) linkage over Euclidean distances is
computed from sizes and centroids. -/
structure WClus where
  leaves : List String
  size : ℚ
  cen : List ℚ
deriving DecidableEq

/-- Placeholder cluster used for out-of-range index accesses (never selected
by the merge loop on well-formed input). -/
def WClus.dflt : WClus :=
  ⟨[], 0, []⟩

/-- Squared Euclidean distance between two coordinate vectors. -/
def sqDist (xs ys : List ℚ) : ℚ :=
  (List.zipWith (fun a b => (a - b) * (a - b)) xs ys).sum

/-- Modelled from the spec: the Ward (minimum-variance) merge criterion
between two clusters, proportional to the increase in total within-cluster
variance caused by merging them. -/
def wardDist (a b : WClus) : ℚ :=
  a.size * b.size / (a.size + b.size) * sqDist a.cen b.cen

/-- All index pairs (i, j) with i < j < n, in scan order. -/
def pairList (n : Nat) : List (Nat × Nat) :=
  (List.range n).flatMap
    (fun i => ((List.range n).filter (fun j => decide (i < j))).map (fun j => (i, j)))

/-- First pair of cluster indices attaining the minimal Ward distance, in
scan order (a deterministic tie-break). -/
def minPair (cs : List WClus) : Option (Nat × Nat) :=
  (pairList cs.length).foldl
    (fun best p =>
      match best with
      | none => some p
      | some q =>
        if wardDist (cs.getD p.1 WClus.dflt) (cs.getD p.2 WClus.dflt) <
            wardDist (cs.getD q.1 WClus.dflt) (cs.getD q.2 WClus.dflt)
        then some p else some q)
    none

/-- Merge two clusters: concatenate leaf sequences (left subtree before
right subtree, as in a dendrogram traversal), add sizes, and take the
size-weighted mean of the centroids. -/
def mergeClusters (a b : WClus) : WClus :=
  ⟨a.leaves ++ b.leaves, a.size + b.size,
   List.zipWith (fun x y => (a.size * x + b.size * y) / (a.size + b.size)) a.cen b.cen⟩

/-- One agglomeration step: merge the minimal-Ward-distance pair, removing
the two clusters and appending the merged one. -/
def mergeStep (cs : List WClus) : List WClus :=
  match minPair cs with
  | none => cs
  | some (i, j) =>
    let a := cs.getD i WClus.dflt
    let b := cs.getD j WClus.dflt
    ((cs.eraseIdx j).eraseIdx i) ++ [mergeClusters a b]

/-- Fuel-bounded agglomeration loop; the fuel is the initial number of
observations, which bounds the number of merges. -/
def clusterLoop : Nat → List WClus → List WClus
  | 0, cs => cs
  | n + 1, cs => if cs.length ≤ 1 then cs else clusterLoop n (mergeStep cs)

/-- Modelled from the spec: the leaf order produced by
`scipy.cluster.hierarchy.leaves_list` on the linkage of the observation
matrix (rows labelled by `df.index`).  The optimal-leaf-ordering refinement
of the traversal is itself a deterministic function of the matrix; it is
modelled here as the deterministic dendrogram traversal of the Ward merge
tree. -/
def wardLeaves (df : List (String × List ℚ)) : List String :=
  (clusterLoop df.length (df.map (fun p => ⟨[p.1], 1, p.2⟩))).flatMap
    (fun c => c.leaves)

/-- Translated from `order_by_linkage` (gig_map_elements.py lines 873-891):
perform linkage clustering of the rows of `df` and return the index labels
in leaf order.  `scipy.cluster.hierarchy.linkage` (external to `src/`)
raises `ValueError` when given fewer than two observations; that guard and
the clustering itself are modelled from the spec contract in section 4.3. -/
def order_by_linkage (df : List (String × List ℚ)) : PyResult (List String) :=
  if df.length < 2 then
    .error "ValueError: The number of observations cannot be determined on an empty condensed distance matrix"
  else
    .ok (wardLeaves df)

/-- C6: the Ordering Resolver is deterministic - for a fixed linkage method
and metric, two calls on the same matrix with at least two rows return the
same (successfully computed) row order - and it raises on a single-row
matrix. -/
theorem order_by_linkage_deterministic_and_guard (df : List (String × List ℚ)) :
    (2 ≤ df.length → order_by_linkage df = order_by_linkage df
        ∧ (order_by_linkage df).isOk = true)
    ∧ (df.length = 1 → (order_by_linkage df).isOk = false) := by
  constructor
  · intro h
    refine ⟨rfl, ?_⟩
    have hlt : ¬(df.length < 2) := by omega
    simp [order_by_linkage, hlt, PyResult.isOk]
  · intro h
    have hlt : df.length < 2 := by omega
    simp [order_by_linkage, hlt, PyResult.isOk]

/-- C6 witness: on a concrete two-row matrix the call is deterministic and
succeeds, and on a concrete one-row matrix it raises. -/
theorem order_by_linkage_deterministic_and_guard_witness :
    (order_by_linkage [("r1", [0, 1]), ("r2", [1, 0])]
        = order_by_linkage [("r1", [0, 1]), ("r2", [1, 0])]
      ∧ (order_by_linkage [("r1", [0, 1]), ("r2", [1, 0])]).isOk = true)
    ∧ (order_by_linkage [("solo", [0])]).isOk = false := by
  exact ⟨(order_by_linkage_deterministic_and_guard [("r1", [0, 1]), ("r2", [1, 0])]).1 (by decide),
    (order_by_linkage_deterministic_and_guard [("solo", [0])]).2 (by decide)⟩

/-! ## Heatmap pivot and read step (HeatmapElement / GeneGenomeHeatmap) -/

/-- Boolean string comparison used to model the sorted index pandas produces
when pivoting. -/
def strLe (a b : String) : Bool :=
  (compare a b).isLE

/-- Insertion step of the string sort. -/
def insertStr (x : String) : List String → List String
  | [] => [x]
  | y :: ys => if strLe x y then x :: y :: ys else y :: insertStr x ys

/-- Insertion sort of strings. -/
def sortStrings : List String → List String
  | [] => []
  | x :: xs => insertStr x (sortStrings xs)

/-- Sorted list of the distinct values of a column, as pandas uses for the
row and column index of a pivoted table. -/
def sortedUnique (xs : List String) : List String :=
  sortStrings xs.eraseDups

/-- Row index (distinct `y_col` values) of the pivoted table built by
`HeatmapElement.read_f`; a long-table row is (y value, x value, cell value),
for the gig-map heatmap (genome, gene, percent identity). -/
def pivotIndex (t : List (String × String × ℚ)) : List String :=
  sortedUnique (t.map (fun r => r.1))

/-- Column index (distinct `x_col` values) of the pivoted table. -/
def pivotCols (t : List (String × String × ℚ)) : List String :=
  sortedUnique (t.map (fun r => r.2.1))

/-- Translated from `df_long.pivot(index=y_col, columns=x_col,
values=val_col).fillna(fill_value)` in `HeatmapElement.read_f`
(gig_map_elements.py lines 186-195): the cell for a (y, x) pair is the value
of the long-table row with that pair, and `fill_value` when no such row
exists. -/
def pivotCell (t : List (String × String × ℚ)) (fill : ℚ) (y x : String) : ℚ :=
  match t.find? (fun r => r.1 == y && r.2.1 == x) with
  | some r => r.2.2
  | none => fill

/-- The pivoted-and-filled wide table `self.df_wide` (rows indexed by y
values, columns by x values). -/
def heatmap_df_wide (t : List (String × String × ℚ)) (fill : ℚ) :
    List (String × List ℚ) :=
  (pivotIndex t).map (fun y => (y, (pivotCols t).map (fun x => pivotCell t fill y x)))

/-- The transpose `self.df_wide.T` (rows indexed by x values), handed to the
Ordering Resolver for the x axis. -/
def heatmap_df_wideT (t : List (String × String × ℚ)) (fill : ℚ) :
    List (String × List ℚ) :=
  (pivotCols t).map (fun x => (x, (pivotIndex t).map (fun y => pivotCell t fill y x)))

/-- Translated from `GeneGenomeHeatmap.__init__` (gig_map_elements.py lines
293-307): the gene-genome heatmap is constructed with `fill_value=0`. -/
def geneGenome_fill_value : ℚ := 0

/-- Outcome of `HeatmapElement.read_f`: the registry afterwards, the
element's enabled flag, the uncaught exception if one was raised, and the
instrumented calls the step made - each Ordering Resolver invocation with
the axis it was computed for and the matrix handed to it, and each
`set_order` call with its axis. -/
structure HeatRes where
  reg : String → Axis
  enabled : Bool
  err : Option String
  resolverCalls : List (String × List (String × List ℚ))
  setOrderCalls : List String

/-- Translated from `HeatmapElement.read_f` (gig_map_elements.py lines
141-211): with no CSV path the element disables itself; otherwise the long
table is pivoted to `df_wide` with missing cells filled by `fill_value`,
and then, for each of the x axis (matrix `df_wide.T`) and then the y axis
(matrix `df_wide`), if that axis is not already fixed the Ordering Resolver
is called on the matrix and its result is offered via `set_order`; an
exception from the resolver aborts the step.  The axis registry operations
are the spec-modelled ones. -/
def heatmapElement_read_f (x_axis y_axis : String) (fill : ℚ)
    (csv : Option (List (String × String × ℚ))) (r : String → Axis) : HeatRes :=
  match csv with
  | none => ⟨r, false, none, [], []⟩
  | some t =>
    let mT := heatmap_df_wideT t fill
    let mW := heatmap_df_wide t fill
    if (r x_axis).is_fixed = false then
      match order_by_linkage mT with
      | .error e => ⟨r, true, some e, [(x_axis, mT)], []⟩
      | .ok ordX =>
        let r1 := updateAxis r x_axis ((r x_axis).set_order ordX)
        if (r1 y_axis).is_fixed = false then
          match order_by_linkage mW with
          | .error e => ⟨r1, true, some e, [(x_axis, mT), (y_axis, mW)], [x_axis]⟩
          | .ok ordY =>
            ⟨updateAxis r1 y_axis ((r1 y_axis).set_order ordY), true, none,
             [(x_axis, mT), (y_axis, mW)], [x_axis, y_axis]⟩
        else ⟨r1, true, none, [(x_axis, mT)], [x_axis]⟩
    else
      if (r y_axis).is_fixed = false then
        match order_by_linkage mW with
        | .error e => ⟨r, true, some e, [(y_axis, mW)], []⟩
        | .ok ordY =>
          ⟨updateAxis r y_axis ((r y_axis).set_order ordY), true, none,
           [(y_axis, mW)], [y_axis]⟩
      else ⟨r, true, none, [], []⟩

/-! ## The genome tree read step (GenomeTree.read_f) -/

/-- Modelled from the spec: the neighbor-joining tree service
(`make_nj_tree`, external to `src/`) returns an object exposing an ordered
member sequence; only that leaf order is relevant here. -/
structure NodePositions where
  genome_order : List String
deriving DecidableEq

/-- Translated from `GenomeTree.read_f` (gig_map_elements.py lines 504-518):
when the genome axis already exists, the distance matrix is subset to the
genomes shared with the axis membership before the tree is built. -/
def treeSubset (dm : List (String × List ℚ)) (r : String → Axis) :
    List (String × List ℚ) :=
  if (r "genome").ax_exists then
    dm.filter (fun row => (r "genome").member_set.contains row.1)
  else dm

/-- Translated from `GenomeTree.read_f` (gig_map_elements.py lines 478-529):
with no distance-matrix path the element disables itself; otherwise the
matrix is read (and possibly subset, see `treeSubset`), a neighbor-joining
tree is built from it, the genome axis order is set to the tree's leaf order
via `set_order`, and the axis is fixed by assigning `is_fixed = True`.  The
tree builder `nj` is a parameter standing for the external `make_nj_tree`.
The result is the registry afterwards and the element's enabled flag. -/
def genomeTree_read_f (nj : List String → List (String × List ℚ) → NodePositions)
    (distmat : Option (List (String × List ℚ))) (r : String → Axis) :
    (String → Axis) × Bool :=
  match distmat with
  | none => (r, false)
  | some dm =>
    let dm2 := treeSubset dm r
    let np := nj (dm2.map (fun p => p.1)) dm2
    (updateAxis r "genome" { (r "genome").set_order np.genome_order with is_fixed := true }, true)

/-- Reading back a different axis after a registry write is unchanged. -/
theorem updateAxis_apply_ne (r : String → Axis) (n : String) (a : Axis) (m : String)
    (h : m ≠ n) : updateAxis r n a m = r m := by
  simp [updateAxis, h]

/-- Reading back the written axis after a registry write. -/
theorem updateAxis_apply_self (r : String → Axis) (n : String) (a : Axis) :
    updateAxis r n a n = a := by
  simp [updateAxis]

/-- Helper for C2: when the y axis is already fixed before the heatmap read
step (and differs from the x axis), the step never invokes the Ordering
Resolver for the y axis, never calls `set_order` on it, and leaves it
unchanged in the registry. -/
theorem heatmap_skips_fixed_y (x_axis y_axis : String) (fill : ℚ)
    (csv : Option (List (String × String × ℚ))) (r : String → Axis)
    (hx : y_axis ≠ x_axis) (hfix : (r y_axis).is_fixed = true) :
    y_axis ∉ (heatmapElement_read_f x_axis y_axis fill csv r).resolverCalls.map Prod.fst
    ∧ y_axis ∉ (heatmapElement_read_f x_axis y_axis fill csv r).setOrderCalls
    ∧ (heatmapElement_read_f x_axis y_axis fill csv r).reg y_axis = r y_axis := by
  cases csv with
  | none => exact ⟨by simp [heatmapElement_read_f], by simp [heatmapElement_read_f],
      by simp [heatmapElement_read_f]⟩
  | some t =>
    by_cases hxf : (r x_axis).is_fixed = false
    · cases h : order_by_linkage (heatmap_df_wideT t fill) with
      | error e =>
        refine ⟨?_, ?_, ?_⟩ <;>
          simp [heatmapElement_read_f, hxf, h, hx]
      | ok ordX =>
        have hy : (updateAxis r x_axis ((r x_axis).set_order ordX) y_axis).is_fixed = true := by
          rw [updateAxis_apply_ne r x_axis _ y_axis hx]
          exact hfix
        refine ⟨?_, ?_, ?_⟩ <;>
          simp [heatmapElement_read_f, hxf, h, hy, hx, hfix,
            updateAxis_apply_ne r x_axis _ y_axis hx]
    · have hyf : ¬((r y_axis).is_fixed = false) := by
        rw [hfix]; simp
      refine ⟨?_, ?_, ?_⟩ <;>
        simp [heatmapElement_read_f, hxf, hyf]

/-- C2: when the tree element is enabled (a distance matrix was supplied)
and the genome axis was not fixed by an earlier element, the tree read step
sets the genome axis order to the tree's leaf order and fixes the axis; the
subsequent heatmap read step, which re-checks `is_fixed` before computing a
similarity order, never invokes the Ordering Resolver for the genome axis
and never calls `set_order` on it, so the tree's fixed order survives the
heatmap read step unchanged. -/
theorem genomeTree_fixes_and_heatmap_respects
    (nj : List String → List (String × List ℚ) → NodePositions)
    (dm : List (String × List ℚ)) (csv : Option (List (String × String × ℚ)))
    (r0 : String → Axis) (hunfix : (r0 "genome").is_fixed = false) :
    (genomeTree_read_f nj (some dm) r0).2 = true
    ∧ ((genomeTree_read_f nj (some dm) r0).1 "genome").is_fixed = true
    ∧ ((genomeTree_read_f nj (some dm) r0).1 "genome").order
        = (nj ((treeSubset dm r0).map (fun p => p.1)) (treeSubset dm r0)).genome_order
    ∧ "genome" ∉ (heatmapElement_read_f "gene" "genome" 0 csv
        (genomeTree_read_f nj (some dm) r0).1).resolverCalls.map Prod.fst
    ∧ "genome" ∉ (heatmapElement_read_f "gene" "genome" 0 csv
        (genomeTree_read_f nj (some dm) r0).1).setOrderCalls
    ∧ (heatmapElement_read_f "gene" "genome" 0 csv
        (genomeTree_read_f nj (some dm) r0).1).reg "genome"
        = (genomeTree_read_f nj (some dm) r0).1 "genome" := by
  have hne : ("genome" : String) ≠ "gene" := by decide
  have hr1 : (genomeTree_read_f nj (some dm) r0).1 "genome"
      = { (r0 "genome").set_order
            (nj ((treeSubset dm r0).map (fun p => p.1)) (treeSubset dm r0)).genome_order
          with is_fixed := true } := by
    simp [genomeTree_read_f, updateAxis_apply_self]
  have hfix : ((genomeTree_read_f nj (some dm) r0).1 "genome").is_fixed = true := by
    rw [hr1]
  have hord : ((genomeTree_read_f nj (some dm) r0).1 "genome").order
      = (nj ((treeSubset dm r0).map (fun p => p.1)) (treeSubset dm r0)).genome_order := by
    rw [hr1]
    simp [Axis.set_order, hunfix]
  have hskip := heatmap_skips_fixed_y "gene" "genome" 0 csv
    (genomeTree_read_f nj (some dm) r0).1 hne hfix
  exact ⟨rfl, hfix, hord, hskip.1, hskip.2.1, hskip.2.2⟩

/-- C2 witness: with a concrete two-genome distance matrix, a tree service
returning its input order, no heatmap CSV and a fresh registry, the tree
read step fixes the genome axis to the leaf order and the heatmap read step
leaves it untouched. -/
theorem genomeTree_fixes_and_heatmap_respects_witness :
    (genomeTree_read_f (fun ids _ => ⟨ids⟩) (some [("gA", [0, 1]), ("gB", [1, 0])]) emptyReg).2 = true
    ∧ ((genomeTree_read_f (fun ids _ => ⟨ids⟩) (some [("gA", [0, 1]), ("gB", [1, 0])]) emptyReg).1 "genome").is_fixed = true
    ∧ ((genomeTree_read_f (fun ids _ => ⟨ids⟩) (some [("gA", [0, 1]), ("gB", [1, 0])]) emptyReg).1 "genome").order
        = ((fun (ids : List String) (_ : List (String × List ℚ)) => (⟨ids⟩ : NodePositions))
            ((treeSubset [("gA", [0, 1]), ("gB", [1, 0])] emptyReg).map (fun p => p.1))
            (treeSubset [("gA", [0, 1]), ("gB", [1, 0])] emptyReg)).genome_order
    ∧ "genome" ∉ (heatmapElement_read_f "gene" "genome" 0 none
        (genomeTree_read_f (fun ids _ => ⟨ids⟩) (some [("gA", [0, 1]), ("gB", [1, 0])]) emptyReg).1).resolverCalls.map Prod.fst
    ∧ "genome" ∉ (heatmapElement_read_f "gene" "genome" 0 none
        (genomeTree_read_f (fun ids _ => ⟨ids⟩) (some [("gA", [0, 1]), ("gB", [1, 0])]) emptyReg).1).setOrderCalls
    ∧ (heatmapElement_read_f "gene" "genome" 0 none
        (genomeTree_read_f (fun ids _ => ⟨ids⟩) (some [("gA", [0, 1]), ("gB", [1, 0])]) emptyReg).1).reg "genome"
        = (genomeTree_read_f (fun ids _ => ⟨ids⟩) (some [("gA", [0, 1]), ("gB", [1, 0])]) emptyReg).1 "genome" := by
  exact genomeTree_fixes_and_heatmap_respects (fun ids _ => ⟨ids⟩)
    [("gA", [0, 1]), ("gB", [1, 0])] none emptyReg (by decide)

/-- C10: in the heatmap read step, every cell of the pivoted wide table
whose (genome, gene) pair is absent from the long-format input is assigned
the fill value, which `GeneGenomeHeatmap` sets to 0, and the zero-filled
wide matrix (respectively its transpose) is exactly the matrix handed to the
Ordering Resolver for the genome (respectively gene) axis. -/
theorem geneGenome_missing_cells_zero (t : List (String × String × ℚ)) (g x : String)
    (hg : g ∈ pivotIndex t) (hx : x ∈ pivotCols t)
    (habs : ∀ row ∈ t, ¬(row.1 = g ∧ row.2.1 = x))
    (r : String → Axis)
    (hgf : (r "gene").is_fixed = false) (hyf : (r "genome").is_fixed = false)
    (hcols : 2 ≤ (heatmap_df_wideT t geneGenome_fill_value).length) :
    pivotCell t geneGenome_fill_value g x = 0
    ∧ geneGenome_fill_value = 0
    ∧ ("gene", heatmap_df_wideT t geneGenome_fill_value)
        ∈ (heatmapElement_read_f "gene" "genome" geneGenome_fill_value (some t) r).resolverCalls
    ∧ ("genome", heatmap_df_wide t geneGenome_fill_value)
        ∈ (heatmapElement_read_f "gene" "genome" geneGenome_fill_value (some t) r).resolverCalls := by
  have hfill : geneGenome_fill_value = 0 := rfl
  have hfind : t.find? (fun row => row.1 == g && row.2.1 == x) = none := by
    rw [List.find?_eq_none]
    intro row hrow
    have hn := habs row hrow
    simp only [Bool.and_eq_true, beq_iff_eq]
    intro hcon
    exact hn hcon
  have hcell : pivotCell t geneGenome_fill_value g x = 0 := by
    simp [pivotCell, hfind, hfill]
  have hnot2 : ¬((heatmap_df_wideT t geneGenome_fill_value).length < 2) := by omega
  have hok : order_by_linkage (heatmap_df_wideT t geneGenome_fill_value)
      = .ok (wardLeaves (heatmap_df_wideT t geneGenome_fill_value)) := by
    simp [order_by_linkage, hnot2]
  have hne : ("genome" : String) ≠ "gene" := by decide
  have hyfix : (updateAxis r "gene"
      ((r "gene").set_order (wardLeaves (heatmap_df_wideT t geneGenome_fill_value)))
      "genome").is_fixed = false := by
    rw [updateAxis_apply_ne _ _ _ _ hne]
    exact hyf
  cases hW : order_by_linkage (heatmap_df_wide t geneGenome_fill_value) with
  | error e =>
    refine ⟨hcell, hfill, ?_, ?_⟩ <;>
      simp [heatmapElement_read_f, hgf, hok, hW, hyfix]
  | ok ordY =>
    refine ⟨hcell, hfill, ?_, ?_⟩ <;>
      simp [heatmapElement_read_f, hgf, hok, hW, hyfix]

/-- C10 witness: in a concrete three-row long table over genomes g1, g2 and
genes a, b, the absent cell (g2, b) is filled with 0, and the filled matrix
and its transpose are handed to the Ordering Resolver. -/
theorem geneGenome_missing_cells_zero_witness :
    pivotCell [("g1", "a", 50), ("g1", "b", 60), ("g2", "a", 70)] geneGenome_fill_value "g2" "b" = 0
    ∧ geneGenome_fill_value = 0
    ∧ ("gene", heatmap_df_wideT [("g1", "a", 50), ("g1", "b", 60), ("g2", "a", 70)] geneGenome_fill_value)
        ∈ (heatmapElement_read_f "gene" "genome" geneGenome_fill_value
            (some [("g1", "a", 50), ("g1", "b", 60), ("g2", "a", 70)]) emptyReg).resolverCalls
    ∧ ("genome", heatmap_df_wide [("g1", "a", 50), ("g1", "b", 60), ("g2", "a", 70)] geneGenome_fill_value)
        ∈ (heatmapElement_read_f "gene" "genome" geneGenome_fill_value
            (some [("g1", "a", 50), ("g1", "b", 60), ("g2", "a", 70)]) emptyReg).resolverCalls := by
  exact geneGenome_missing_cells_zero [("g1", "a", 50), ("g1", "b", 60), ("g2", "a", 70)]
    "g2" "b" (by decide) (by decide) (by decide) emptyReg (by decide) (by decide) (by decide)

/-! ## Chunked distance writes (aggregate_results.py lines 233-269) -/

/-- Translated from the while loop in aggregate_results.py lines 233-263:
while rows remain, write the first `min(len(rows), k)` rows under the key
`"distances_" ++ toString (number of keys recorded so far)`, record that
key, stop if at most `k` rows remained, and otherwise drop the first `k`
rows and continue.  The loop is fuel-bounded for totality; with `k ≥ 1` any
fuel of at least the row count reproduces the Python loop exactly (with
`k = 0` the Python loop does not terminate).  The result is the ordered list
of (key, chunk) writes; the final `dists_keys` list stored under
"distances_keys" is its list of first components. -/
def distLoop {α : Type} (k : Nat) : Nat → Nat → List α → List (String × List α)
  | 0, _, _ => []
  | fuel + 1, keyIx, rows =>
    if rows.length = 0 then []
    else
      let chunk := rows.take (min rows.length k)
      if rows.length ≤ k then [("distances_" ++ toString keyIx, chunk)]
      else ("distances_" ++ toString keyIx, chunk) :: distLoop k fuel (keyIx + 1) (rows.drop k)

/-- The full write sequence of the distances section: run the loop from key
index 0 with sufficient fuel. -/
def dist_chunk_writes {α : Type} (k : Nat) (rows : List α) : List (String × List α) :=
  distLoop k rows.length 0 rows

/-- Concatenating the chunks written by the loop, in order, reproduces the
original rows. -/
theorem distLoop_join {α : Type} (k : Nat) (hk : 1 ≤ k) :
    ∀ (fuel keyIx : Nat) (rows : List α), rows.length ≤ fuel →
      ((distLoop k fuel keyIx rows).map Prod.snd).flatten = rows := by
  intro fuel
  induction fuel with
  | zero =>
    intro keyIx rows hlen
    have hnil : rows = [] := List.eq_nil_of_length_eq_zero (Nat.le_zero.mp hlen)
    subst hnil
    simp [distLoop]
  | succ n ih =>
    intro keyIx rows hlen
    cases rows with
    | nil => simp [distLoop]
    | cons a as =>
      by_cases hle : as.length + 1 ≤ k
      · have hmin : min (as.length + 1) k = as.length + 1 := Nat.min_eq_left hle
        simp [distLoop, hle, hmin]
      · have hklt : k < as.length + 1 := Nat.lt_of_not_le hle
        have hmin : min (as.length + 1) k = k := Nat.min_eq_right (Nat.le_of_lt hklt)
        have hdrop : ((a :: as).drop k).length ≤ n := by
          rw [List.length_drop]
          simp only [List.length_cons] at hlen ⊢
          omega
        have hrec := ih (keyIx + 1) ((a :: as).drop k) hdrop
        simp only [distLoop, List.length_cons, hmin]
        rw [if_neg (by omega : ¬(as.length + 1 = 0)), if_neg hle]
        simp only [List.map_cons, List.flatten_cons, hrec]
        exact List.take_append_drop k (a :: as)

/-- Every chunk written by the loop has at most `k` rows. -/
theorem distLoop_sizes {α : Type} (k : Nat) :
    ∀ (fuel keyIx : Nat) (rows : List α), ∀ c ∈ distLoop k fuel keyIx rows,
      c.2.length ≤ k := by
  intro fuel
  induction fuel with
  | zero =>
    intro keyIx rows c hc
    simp [distLoop] at hc
  | succ n ih =>
    intro keyIx rows c hc
    cases rows with
    | nil => simp [distLoop] at hc
    | cons a as =>
      simp only [distLoop, List.length_cons] at hc
      rw [if_neg (by omega : ¬(as.length + 1 = 0))] at hc
      by_cases hle : as.length + 1 ≤ k
      · rw [if_pos hle] at hc
        have hc2 : c = ("distances_" ++ toString keyIx,
            (a :: as).take (min (as.length + 1) k)) := by
          simpa using hc
        subst hc2
        have : ((a :: as).take (min (as.length + 1) k)).length ≤ min (as.length + 1) k := by
          simp [List.length_take]
        exact Nat.le_trans this (Nat.min_le_right _ _)
      · rw [if_neg hle] at hc
        rcases List.mem_cons.mp hc with hhd | htl
        · subst hhd
          have : ((a :: as).take (min (as.length + 1) k)).length ≤ min (as.length + 1) k := by
            simp [List.length_take]
          exact Nat.le_trans this (Nat.min_le_right _ _)
        · exact ih (keyIx + 1) ((a :: as).drop k) c htl

/-- The keys recorded by the loop are exactly `"distances_" ++ toString i`
for consecutive indices starting at the initial key index. -/
theorem distLoop_keys {α : Type} (k : Nat) :
    ∀ (fuel keyIx : Nat) (rows : List α),
      (distLoop k fuel keyIx rows).map Prod.fst
        = (List.range (distLoop k fuel keyIx rows).length).map
            (fun j => "distances_" ++ toString (keyIx + j)) := by
  intro fuel
  induction fuel with
  | zero =>
    intro keyIx rows
    simp [distLoop]
  | succ n ih =>
    intro keyIx rows
    cases rows with
    | nil => simp [distLoop]
    | cons a as =>
      simp only [distLoop, List.length_cons]
      rw [if_neg (by omega : ¬(as.length + 1 = 0))]
      by_cases hle : as.length + 1 ≤ k
      · rw [if_pos hle]
        simp [List.range_succ]
      · rw [if_neg hle]
        have hrec := ih (keyIx + 1) ((a :: as).drop k)
        simp only [List.map_cons, List.length_cons, hrec]
        rw [List.range_succ_eq_map]
        simp only [List.map_cons, List.map_map, Nat.add_zero]
        congr 1
        apply List.map_congr_left
        intro j hj
        simp only [Function.comp_apply]
        rw [show keyIx + 1 + j = keyIx + Nat.succ j from by omega]

/-- C7: for every distance table and every chunk size of at least one row,
the chunking loop writes chunks of at most `k` rows whose concatenation in
the recorded key order reproduces the table rows exactly (each row written
exactly once, in order), and the recorded key sequence is
"distances_0", "distances_1", ... in order. -/
theorem dist_chunks_correct {α : Type} (k : Nat) (rows : List α) (hk : 1 ≤ k) :
    ((dist_chunk_writes k rows).map Prod.snd).flatten = rows
    ∧ ((dist_chunk_writes k rows).all (fun c => decide (c.2.length ≤ k))) = true
    ∧ (dist_chunk_writes k rows).map Prod.fst
        = (List.range (dist_chunk_writes k rows).length).map
            (fun j => "distances_" ++ toString j) := by
  refine ⟨distLoop_join k hk rows.length 0 rows (Nat.le_refl _), ?_, ?_⟩
  · rw [List.all_eq_true]
    intro c hc
    simpa using distLoop_sizes k rows.length 0 rows c hc
  · have h := distLoop_keys k rows.length 0 rows
    simpa [dist_chunk_writes] using h

/-- C7 witness: chunking three rows with chunk size two writes chunks
[10, 20] and [30] under keys "distances_0" and "distances_1", reassembling
to the original rows. -/
theorem dist_chunks_correct_witness :
    ((dist_chunk_writes 2 [10, 20, 30]).map Prod.snd).flatten = [10, 20, 30]
    ∧ ((dist_chunk_writes 2 [10, 20, 30]).all (fun c => decide (c.2.length ≤ 2))) = true
    ∧ (dist_chunk_writes 2 [10, 20, 30]).map Prod.fst
        = (List.range (dist_chunk_writes 2 [10, 20, 30]).length).map
            (fun j => "distances_" ++ toString j) :=
  dist_chunks_correct 2 [10, 20, 30] (by decide)
